import Mathlib

/-!
Shallow embedding of the scoring/alerting engine of the weather-4-bike
repository (src/js/insights.js) and of its recent-locations store
(src/js/location.js), together with theorems settling the spec claims.

Numeric values are modelled as exact rationals (ℚ).  JavaScript
`Math.round` rounds half-up (towards +∞), i.e. `Math.round x = ⌊x + 1/2⌋`.
Weather fields that may be `null` are modelled as `Option ℚ`.
-/

namespace W4B

/-- JavaScript `Math.round`: round half towards +∞. -/
def jsRound (x : ℚ) : ℤ := ⌊x + 1/2⌋

/-- JavaScript `String.prototype.toLowerCase`, modelled characterwise (the
strings the code lowers are ASCII). -/
def jsToLower (s : String) : String := ⟨s.data.map Char.toLower⟩

/-- JavaScript `String.prototype.trim`: strip whitespace from both ends. -/
def jsTrim (s : String) : String :=
  ⟨((s.data.dropWhile Char.isWhitespace).reverse.dropWhile Char.isWhitespace).reverse⟩

/-- Rounding to one decimal place, `Math.round(x * 10) / 10`, as used throughout
`insights.js`. -/
def round1 (x : ℚ) : ℚ := (jsRound (x * 10) : ℚ) / 10

/-- Function `kph` from insights.js: `null` becomes 0, otherwise the speed is rounded
to one decimal place. -/
def kph (kmh : Option ℚ) : ℚ :=
  match kmh with
  | none => 0
  | some w => round1 w

/-- The final clamping step shared by the three 1–10 scoring functions:
`Math.max(1, Math.min(10, Math.round(totalScore * 10) / 10))`. -/
def finalClamp (totalScore : ℚ) : ℚ := max 1 (min 10 (round1 totalScore))

/-- Wind penalty step function shared verbatim by the road, gravel and MTB
scorers in insights.js: ≤10→0, ≤20→1, ≤30→2, ≤40→3, else 4. -/
def windPenaltyStep (windSpeedKmh : ℚ) : ℚ :=
  if windSpeedKmh ≤ 10 then 0
  else if windSpeedKmh ≤ 20 then 1
  else if windSpeedKmh ≤ 30 then 2
  else if windSpeedKmh ≤ 40 then 3
  else 4

/-- Road wind penalty (insights.js lines 148–158): the step penalty with the
direction multiplier.  `String(windDirectionRelation || 'crosswind').toLowerCase()`
is modelled by substituting `"crosswind"` for the empty string and lowering. -/
def roadWindPenalty (windSpeedKmh : ℚ) (windDirectionRelation : String) : ℚ :=
  let dir := jsToLower (if windDirectionRelation = "" then "crosswind" else windDirectionRelation)
  if dir = "headwind" then windPenaltyStep windSpeedKmh * 1.3
  else if dir = "tailwind" then windPenaltyStep windSpeedKmh * 0.7
  else windPenaltyStep windSpeedKmh

/-- Road temperature penalty (insights.js lines 161–167). -/
def roadTempPenalty (temperatureC : ℚ) : ℚ :=
  if 15 ≤ temperatureC ∧ temperatureC ≤ 25 then 0
  else if (10 ≤ temperatureC ∧ temperatureC < 15) ∨ (25 < temperatureC ∧ temperatureC ≤ 30) then 1
  else if 5 ≤ temperatureC ∧ temperatureC < 10 then 2
  else if 30 < temperatureC ∧ temperatureC ≤ 35 then 3
  else if 35 < temperatureC then 6
  else 3

/-- Gravel/MTB temperature penalty (insights.js lines 255–261 and 304–310):
same bands as road but 4 for >30–35 and 7 for >35. -/
def offroadTempPenalty (temperatureC : ℚ) : ℚ :=
  if 15 ≤ temperatureC ∧ temperatureC ≤ 25 then 0
  else if (10 ≤ temperatureC ∧ temperatureC < 15) ∨ (25 < temperatureC ∧ temperatureC ≤ 30) then 1
  else if 5 ≤ temperatureC ∧ temperatureC < 10 then 2
  else if 30 < temperatureC ∧ temperatureC ≤ 35 then 4
  else if 35 < temperatureC then 7
  else 3

/-- Humidity penalty shared by all three scorers: ≤60→0, ≤80→1, else 2. -/
def humidityPenaltyOf (humidityPct : ℚ) : ℚ :=
  if humidityPct ≤ 60 then 0
  else if humidityPct ≤ 80 then 1
  else 2

/-- Visibility penalty shared by all three scorers: ≥10→0, ≥5→1, ≥2→2, else 3. -/
def visibilityPenaltyOf (visibilityKm : ℚ) : ℚ :=
  if 10 ≤ visibilityKm then 0
  else if 5 ≤ visibilityKm then 1
  else if 2 ≤ visibilityKm then 2
  else 3

/-- UV penalty shared by all three scorers: ≤5→0, ≤7→0.5, ≤9→1.0, else 1.5. -/
def uvPenaltyOf (uvIndex : ℚ) : ℚ :=
  if uvIndex ≤ 5 then 0
  else if uvIndex ≤ 7 then 0.5
  else if uvIndex ≤ 9 then 1.0
  else 1.5

/-- Breakdown map returned by each 1–10 scoring function. -/
structure ScoreBreakdown where
  windPenalty : ℚ
  temperaturePenalty : ℚ
  humidityPenalty : ℚ
  visibilityPenalty : ℚ
  uvPenalty : ℚ
  deriving DecidableEq, Repr

/-- Result of a 1–10 scoring function: score, message and penalty breakdown. -/
structure ScoreResult where
  score : ℚ
  message : String
  breakdown : ScoreBreakdown
  deriving DecidableEq, Repr

/-- The accumulation shared verbatim by the three 1–10 scorers: subtract the
wind, temperature and humidity penalties from 10, apply the ≥90%-humidity
ceiling (`humidityCap` is 4.0 for road and 3.5 for gravel/MTB), subtract the
visibility and UV penalties, then apply the >35°C "no go" ceiling of 2.0. -/
def scoreCore (windPenalty tempPenalty humidityPenalty humidityPct humidityCap
    visibilityPenalty uvPenalty temperatureC : ℚ) : ℚ :=
  let afterHumidity := 10 - windPenalty - tempPenalty - humidityPenalty
  let afterHumidityCap := if 90 ≤ humidityPct then min afterHumidity humidityCap else afterHumidity
  let afterAllPenalties := afterHumidityCap - visibilityPenalty - uvPenalty
  if 35 < temperatureC then min afterAllPenalties 2.0 else afterAllPenalties

/-- Embedding of `calculateBikeScore` (insights.js lines 144–226): road 1–10 score from wind
speed, wind direction relation, temperature, humidity, visibility and UV. -/
def calculateBikeScore (windSpeedKmh : ℚ) (windDirectionRelation : String)
    (temperatureC humidityPct visibilityKm uvIndex : ℚ) : ScoreResult :=
  let windPenalty := roadWindPenalty windSpeedKmh windDirectionRelation
  let tempPenalty := roadTempPenalty temperatureC
  let humidityPenalty := humidityPenaltyOf humidityPct
  let visibilityPenalty := visibilityPenaltyOf visibilityKm
  let uvPenalty := uvPenaltyOf uvIndex
  let totalScore := scoreCore windPenalty tempPenalty humidityPenalty humidityPct 4.0
    visibilityPenalty uvPenalty temperatureC
  let finalScore := finalClamp totalScore
  let message :=
    (if 8 ≤ finalScore then "Perfect conditions! Go for that long ride! 🚴‍♂️"
     else if 6 ≤ finalScore then "Good conditions for cycling. Enjoy your ride!"
     else if 4 ≤ finalScore then "Decent conditions, but be prepared for some challenges."
     else if 3 ≤ finalScore then "Challenging conditions. Only go if you\x27re experienced."
     else "Poor conditions. Consider indoor training.")
    ++ (if 7 ≤ uvIndex then " Consider riding early or late due to high UV." else "")
  { score := finalScore
    message := message
    breakdown :=
      { windPenalty := round1 windPenalty
        temperaturePenalty := tempPenalty
        humidityPenalty := humidityPenalty
        visibilityPenalty := visibilityPenalty
        uvPenalty := round1 uvPenalty } }

/-- The `current` reading of a weather snapshot.  Every numeric field may be
`null` (`none`); the scoring/alerting code substitutes defaults per field. -/
structure CurrentWeather where
  temperature : Option ℚ
  humidity : Option ℚ
  windSpeed : Option ℚ
  visibility : Option ℚ
  uvIndex : Option ℚ
  precipitation : Option ℚ
  precipitationProbability : Option ℚ
  deriving DecidableEq, Repr

/-- A weather snapshot, restricted to the part the claims use. -/
structure WeatherData where
  current : CurrentWeather
  deriving DecidableEq, Repr

/-- Extraction used by the three FromWeather scorers: `Number(x) || 0` and
`Number(x || 0)` both send `null` (and `NaN`) to 0 and keep numbers. -/
def numOr0 (x : Option ℚ) : ℚ := x.getD 0

/-- Extraction `const windKmh = kph(c.windSpeed)` of the FromWeather scorers. -/
def windKmhOf (weatherData : WeatherData) : ℚ := kph weatherData.current.windSpeed

/-- Extraction `const tempC = Number(c.temperature) || 0` of the FromWeather scorers. -/
def tempCOf (weatherData : WeatherData) : ℚ := numOr0 weatherData.current.temperature

/-- Extraction `const rh = Number(c.humidity) || 0` of the FromWeather scorers. -/
def rhOf (weatherData : WeatherData) : ℚ := numOr0 weatherData.current.humidity

/-- Extraction `const visKm = Math.max(0, Number(c.visibility || 0) / 1000)` of the
FromWeather scorers. -/
def visKmOf (weatherData : WeatherData) : ℚ := max 0 (numOr0 weatherData.current.visibility / 1000)

/-- Extraction `const uv = Number(c.uvIndex) || 0` of the FromWeather scorers. -/
def uvOf (weatherData : WeatherData) : ℚ := numOr0 weatherData.current.uvIndex

/-- Embedding of `calculateBikeScoreFromWeather` (insights.js lines 228–236): extract the
current reading with `null → 0` defaults and call `calculateBikeScore`. -/
def calculateBikeScoreFromWeather (weatherData : WeatherData) (windRelation : String) :
    ScoreResult :=
  calculateBikeScore (windKmhOf weatherData) windRelation (tempCOf weatherData)
    (rhOf weatherData) (visKmOf weatherData) (uvOf weatherData)

/-- Gravel wind penalty (insights.js lines 249–251): the shared step penalty
with a flat 1.5 multiplier. -/
def gravelWindPenalty (windKmh : ℚ) : ℚ := windPenaltyStep windKmh * 1.5

/-- Embedding of `calculateGravelScoreFromWeather` (insights.js lines 239–288). -/
def calculateGravelScoreFromWeather (weatherData : WeatherData) : ScoreResult :=
  let windKmh := windKmhOf weatherData
  let tempC := tempCOf weatherData
  let rh := rhOf weatherData
  let visKm := visKmOf weatherData
  let uv := uvOf weatherData
  let windPenalty := gravelWindPenalty windKmh
  let tempPenalty := offroadTempPenalty tempC
  let humidityPenalty := humidityPenaltyOf rh
  let visibilityPenalty := visibilityPenaltyOf visKm
  let uvPenalty := uvPenaltyOf uv
  let totalScore := scoreCore windPenalty tempPenalty humidityPenalty rh 3.5
    visibilityPenalty uvPenalty tempC
  let finalScore := finalClamp totalScore
  let message :=
    (if 8 ≤ finalScore then "Great day for gravel!"
     else if 6 ≤ finalScore then "Good gravel conditions."
     else if 4 ≤ finalScore then "Manageable gravel, expect challenges."
     else if 3 ≤ finalScore then "Challenging gravel conditions."
     else "Poor gravel conditions.")
    ++ (if 7 ≤ uv then " Consider riding early or late due to high UV." else "")
  { score := finalScore
    message := message
    breakdown :=
      { windPenalty := round1 windPenalty
        temperaturePenalty := tempPenalty
        humidityPenalty := humidityPenalty
        visibilityPenalty := visibilityPenalty
        uvPenalty := round1 uvPenalty } }

/-- Embedding of `calculateMTBScoreFromWeather` (insights.js lines 291–335): like gravel but
with the unmultiplied wind step penalty. -/
def calculateMTBScoreFromWeather (weatherData : WeatherData) : ScoreResult :=
  let windKmh := windKmhOf weatherData
  let tempC := tempCOf weatherData
  let rh := rhOf weatherData
  let visKm := visKmOf weatherData
  let uv := uvOf weatherData
  let windPenalty := windPenaltyStep windKmh
  let tempPenalty := offroadTempPenalty tempC
  let humidityPenalty := humidityPenaltyOf rh
  let visibilityPenalty := visibilityPenaltyOf visKm
  let uvPenalty := uvPenaltyOf uv
  let totalScore := scoreCore windPenalty tempPenalty humidityPenalty rh 3.5
    visibilityPenalty uvPenalty tempC
  let finalScore := finalClamp totalScore
  let message :=
    (if 8 ≤ finalScore then "Trails are prime!"
     else if 6 ≤ finalScore then "Good day to ride."
     else if 4 ≤ finalScore then "Rideable with caution."
     else if 3 ≤ finalScore then "Challenging trail conditions."
     else "Not recommended today.")
    ++ (if 7 ≤ uv then " Consider riding early or late due to high UV." else "")
  { score := finalScore
    message := message
    breakdown :=
      { windPenalty := round1 windPenalty
        temperaturePenalty := tempPenalty
        humidityPenalty := humidityPenalty
        visibilityPenalty := visibilityPenalty
        uvPenalty := round1 uvPenalty } }

/-- A safety alert: type, severity, message. -/
structure Alert where
  type : String
  severity : String
  message : String
  deriving DecidableEq, Repr

/-- Embedding of `generateSafetyAlerts` (insights.js lines 64–75). -/
def generateSafetyAlerts (weatherData : WeatherData) : List Alert :=
  let c := weatherData.current
  let wind := kph c.windSpeed
  let windAlerts : List Alert :=
    if 25 ≤ wind then
      [{ type := "wind", severity := if 40 ≤ wind then "high" else "moderate",
         message := "Strong winds may affect bike handling." }]
    else []
  let visibilityAlerts : List Alert :=
    if c.visibility.getD 10000 < 2000 then
      [{ type := "visibility", severity := "moderate",
         message := "Low visibility. Use lights and high-visibility gear." }]
    else []
  let wetAlerts : List Alert :=
    if 0 < c.precipitation.getD 0 ∨ 60 < c.precipitationProbability.getD 0 then
      [{ type := "wet", severity := "moderate",
         message := "Wet conditions possible. Increase braking distance." }]
    else []
  let t := c.temperature.getD 15
  let coldAlerts : List Alert :=
    if t ≤ 0 then
      [{ type := "cold", severity := "high", message := "Freezing temperatures. Risk of ice." }]
    else []
  let heatAlerts : List Alert :=
    if 35 ≤ t then
      [{ type := "heat", severity := "high",
         message := "High heat. Hydrate and avoid peak sun hours." }]
    else []
  windAlerts ++ visibilityAlerts ++ wetAlerts ++ coldAlerts ++ heatAlerts

/-- An alert of the given type and severity occurs in the list. -/
def hasAlert (alerts : List Alert) (ty sev : String) : Prop :=
  ∃ a ∈ alerts, a.type = ty ∧ a.severity = sev

/-- An alert of the given type occurs in the list, with any severity. -/
def hasAlertType (alerts : List Alert) (ty : String) : Prop :=
  ∃ a ∈ alerts, a.type = ty

/-! ### Recent locations store (src/js/location.js) -/

/-- A location entry as persisted in the recents list. -/
structure StoredLocation where
  id : String
  name : String
  latitude : ℚ
  longitude : ℚ
  timestamp : ℚ
  deriving DecidableEq, Repr

/-- Embedding of `normalizeName` (location.js lines 114–116): trim, then lower-case. -/
def normalizeName (name : String) : String := jsToLower (jsTrim name)

/-- Constant `MAX_RECENTS` (location.js line 4). -/
def MAX_RECENTS : Nat := 15

/-- One insertion step of a stable sort by descending timestamp.  An element
is placed before the first existing element whose timestamp is not larger,
so originally-earlier elements stay first on ties — the behavior of
JavaScript `Array.prototype.sort` with comparator
`(a, b) => Number(b.timestamp || 0) - Number(a.timestamp || 0)`. -/
def insertByTimestampDesc (x : StoredLocation) :
    List StoredLocation → List StoredLocation
  | [] => [x]
  | y :: ys =>
    if y.timestamp ≤ x.timestamp then x :: y :: ys
    else y :: insertByTimestampDesc x ys

/-- The sort `[...arr].sort((a, b) => ...)` of `getRecentLocationsInternal`
(location.js line 100), modelled as a stable insertion sort. -/
def sortByTimestampDesc (l : List StoredLocation) : List StoredLocation :=
  l.foldr insertByTimestampDesc []

/-- The dedup loop of `getRecentLocationsInternal` (location.js lines
101–110): `seen` holds the normalized names already kept, `room` the number
of entries that may still be pushed before `unique.length >= MAX_RECENTS`
breaks the loop (the loop only runs with `room ≥ 1`). -/
def recentsDedup : List String → Nat → List StoredLocation → List StoredLocation
  | _, _, [] => []
  | seen, room, item :: rest =>
    let key := normalizeName item.name
    if key ∈ seen then recentsDedup seen room rest
    else if room ≤ 1 then [item]
    else item :: recentsDedup (key :: seen) (room - 1) rest

/-- Embedding of `getRecentLocationsInternal` (location.js lines 94–112), with
localStorage modelled as the stored list (the JSON round-trip is the identity
in this model). -/
def getRecentLocationsInternal (stored : List StoredLocation) : List StoredLocation :=
  recentsDedup [] MAX_RECENTS (sortByTimestampDesc stored)

/-- Embedding of `saveRecentLocation` (location.js lines 66–76); `Date.now()` is passed in
as `now`, and the updated stored list is returned. -/
def saveRecentLocation (location : StoredLocation) (now : ℚ)
    (stored : List StoredLocation) : List StoredLocation :=
  let recents := getRecentLocationsInternal stored
  let targetName := normalizeName location.name
  let withoutDup := recents.filter fun r =>
    (r.id != location.id) && (normalizeName r.name != targetName)
  ({ location with timestamp := now } :: withoutDup).take MAX_RECENTS

/-- Sequential saves, earliest first. -/
def saveAll (saves : List (StoredLocation × ℚ)) (stored : List StoredLocation) :
    List StoredLocation :=
  saves.foldl (fun acc p => saveRecentLocation p.1 p.2 acc) stored

/-- The entry a save stores: the location with its timestamp set to save
time. -/
def savedEntry (p : StoredLocation × ℚ) : StoredLocation :=
  { p.1 with timestamp := p.2 }

/-- Invariant of the stored recents list: newest first (weakly descending
timestamps), normalized names pairwise distinct, at most `MAX_RECENTS`
entries.  The empty store satisfies it and `saveRecentLocation` preserves
it. -/
def RecentsInvariant (stored : List StoredLocation) : Prop :=
  stored.Pairwise (fun a b => b.timestamp ≤ a.timestamp) ∧
  stored.Pairwise (fun a b => normalizeName a.name ≠ normalizeName b.name) ∧
  stored.length ≤ MAX_RECENTS

/-- Concrete data for exercising the recents claims: sixteen locations with
pairwise distinct ids and names, saved at times 1, 2, …, 16. -/
def recentsWitnessSaves : List (StoredLocation × ℚ) :=
  [(⟨"1", "a", 0, 0, 0⟩, 1), (⟨"2", "b", 0, 0, 0⟩, 2), (⟨"3", "c", 0, 0, 0⟩, 3),
   (⟨"4", "d", 0, 0, 0⟩, 4), (⟨"5", "e", 0, 0, 0⟩, 5), (⟨"6", "f", 0, 0, 0⟩, 6),
   (⟨"7", "g", 0, 0, 0⟩, 7), (⟨"8", "h", 0, 0, 0⟩, 8), (⟨"9", "i", 0, 0, 0⟩, 9),
   (⟨"10", "j", 0, 0, 0⟩, 10), (⟨"11", "k", 0, 0, 0⟩, 11), (⟨"12", "l", 0, 0, 0⟩, 12),
   (⟨"13", "m", 0, 0, 0⟩, 13), (⟨"14", "n", 0, 0, 0⟩, 14), (⟨"15", "o", 0, 0, 0⟩, 15),
   (⟨"16", "p", 0, 0, 0⟩, 16)]

/-- The road temperature-penalty table as the spec states it (claim C4):
0 for 15–25°C; 1 for 10–<15°C and for >25–30°C; 2 for 5–<10°C; 3 for
>30–35°C; 6 for >35°C; 3 for <5°C (the remaining region). -/
def specTemperaturePenaltyRoad (t : ℚ) : ℚ :=
  if 15 ≤ t ∧ t ≤ 25 then 0
  else if (10 ≤ t ∧ t < 15) ∨ (25 < t ∧ t ≤ 30) then 1
  else if 5 ≤ t ∧ t < 10 then 2
  else if 30 < t ∧ t ≤ 35 then 3
  else if 35 < t then 6
  else 3

/-- The gravel/MTB temperature-penalty table as the spec states it (claim C4):
like the road table but 4 for >30–35°C and 7 for >35°C. -/
def specTemperaturePenaltyOffroad (t : ℚ) : ℚ :=
  if 15 ≤ t ∧ t ≤ 25 then 0
  else if (10 ≤ t ∧ t < 15) ∨ (25 < t ∧ t ≤ 30) then 1
  else if 5 ≤ t ∧ t < 10 then 2
  else if 30 < t ∧ t ≤ 35 then 4
  else if 35 < t then 7
  else 3

/-! ### Basic lemmas about the numeric helpers -/

lemma jsRound_mono {x y : ℚ} (h : x ≤ y) : jsRound x ≤ jsRound y :=
  Int.floor_le_floor (by linarith)

lemma round1_mono {x y : ℚ} (h : x ≤ y) : round1 x ≤ round1 y := by
  unfold round1
  have := jsRound_mono (show x * 10 ≤ y * 10 by linarith)
  have hcast : (jsRound (x * 10) : ℚ) ≤ (jsRound (y * 10) : ℚ) := by exact_mod_cast this
  linarith

/-- A value already expressed in tenths is a fixed point of `round1`. -/
lemma round1_tenths (n : ℤ) : round1 ((n : ℚ) / 10) = (n : ℚ) / 10 := by
  unfold round1 jsRound
  have h10 : ((n : ℚ) / 10) * 10 = (n : ℚ) := by ring
  rw [h10]
  have : ⌊(n : ℚ) + 1 / 2⌋ = n := by
    rw [Int.floor_eq_iff]
    constructor
    · linarith
    · linarith
  rw [this]

lemma round1_two : round1 2 = 2 := by
  have := round1_tenths 20
  norm_num at this
  exact this

lemma round1_three_half : round1 3.5 = 3.5 := by
  have := round1_tenths 35
  norm_num at this
  convert this using 2 <;> norm_num

lemma round1_four : round1 4 = 4 := by
  have := round1_tenths 40
  norm_num at this
  exact this

/-- Combining max and min with division by ten, in the form the final clamp
produces. -/
lemma max_min_tenths (j : ℚ) : max 1 (min 10 (j / 10)) = (max 10 (min 100 j)) / 10 := by
  rcases le_total j 100 with hj | hj
  · rw [min_eq_right hj]
    rcases le_total j 10 with hj1 | hj1
    · rw [max_eq_left hj1, min_eq_right (by linarith), max_eq_left (by linarith)]
      norm_num
    · rw [max_eq_right hj1, min_eq_right (by linarith), max_eq_right (by linarith)]
  · rw [min_eq_left hj, min_eq_left (show (10:ℚ) ≤ j / 10 by linarith),
      max_eq_right (show (1:ℚ) ≤ 10 by norm_num), max_eq_right (show (10:ℚ) ≤ 100 by norm_num)]
    norm_num

/-- The final clamp keeps every score in [1, 10] and in whole tenths. -/
lemma finalClamp_bounds (x : ℚ) :
    1 ≤ finalClamp x ∧ finalClamp x ≤ 10 ∧ ∃ n : ℤ, finalClamp x = (n : ℚ) / 10 := by
  unfold finalClamp round1
  refine ⟨le_max_left _ _, max_le (by norm_num) (le_trans (min_le_left _ _) (by norm_num)), ?_⟩
  refine ⟨max 10 (min 100 (jsRound (x * 10))), ?_⟩
  rw [max_min_tenths]
  push_cast
  rfl

/-- A ceiling in whole tenths that is at least 1 survives the final clamp. -/
lemma finalClamp_le {x b : ℚ} (hb1 : 1 ≤ b) (hbt : round1 b = b) (hxb : x ≤ b) :
    finalClamp x ≤ b := by
  unfold finalClamp
  refine max_le hb1 (le_trans (min_le_right _ _) ?_)
  calc round1 x ≤ round1 b := round1_mono hxb
  _ = b := hbt

/-! ### Penalty sign bounds -/

lemma windPenaltyStep_nonneg (w : ℚ) : 0 ≤ windPenaltyStep w := by
  unfold windPenaltyStep; split_ifs <;> norm_num

lemma roadWindPenalty_nonneg (w : ℚ) (d : String) : 0 ≤ roadWindPenalty w d := by
  have := windPenaltyStep_nonneg w
  simp only [roadWindPenalty]
  split_ifs <;> nlinarith

lemma visibilityPenaltyOf_nonneg (v : ℚ) : 0 ≤ visibilityPenaltyOf v := by
  unfold visibilityPenaltyOf; split_ifs <;> norm_num

lemma uvPenaltyOf_nonneg (u : ℚ) : 0 ≤ uvPenaltyOf u := by
  unfold uvPenaltyOf; split_ifs <;> norm_num

/-! ### Bounds on the shared score pipeline -/

/-- Heat dominates: once the temperature exceeds 35°C the pre-clamp total is
forced to at most 2. -/
lemma scoreCore_le_two {t : ℚ} (wp tp hp hum cap vp up : ℚ) (ht : 35 < t) :
    scoreCore wp tp hp hum cap vp up t ≤ 2 := by
  unfold scoreCore
  rw [if_pos ht]
  exact le_trans (min_le_right _ _) (by norm_num)

/-- With humidity at least 90% the pre-clamp total is at most the humidity
ceiling, provided the later subtractions are nonnegative. -/
lemma scoreCore_le_cap {hum vp up : ℚ} (wp tp hp cap t : ℚ) (hh : 90 ≤ hum)
    (hvp : 0 ≤ vp) (hup : 0 ≤ up) : scoreCore wp tp hp hum cap vp up t ≤ cap := by
  simp only [scoreCore]
  rw [if_pos hh]
  have hmin : min (10 - wp - tp - hp) cap ≤ cap := min_le_right _ _
  split_ifs with h35
  · exact le_trans (min_le_left _ _) (by linarith)
  · linarith

/-! ### Shape lemmas exposing each scorer's pipeline -/

lemma calculateBikeScore_score (w : ℚ) (d : String) (t h v u : ℚ) :
    (calculateBikeScore w d t h v u).score =
      finalClamp (scoreCore (roadWindPenalty w d) (roadTempPenalty t) (humidityPenaltyOf h) h 4.0
        (visibilityPenaltyOf v) (uvPenaltyOf u) t) := rfl

lemma calculateBikeScore_breakdown (w : ℚ) (d : String) (t h v u : ℚ) :
    (calculateBikeScore w d t h v u).breakdown =
      { windPenalty := round1 (roadWindPenalty w d)
        temperaturePenalty := roadTempPenalty t
        humidityPenalty := humidityPenaltyOf h
        visibilityPenalty := visibilityPenaltyOf v
        uvPenalty := round1 (uvPenaltyOf u) } := rfl

lemma calculateGravelScoreFromWeather_score (wd : WeatherData) :
    (calculateGravelScoreFromWeather wd).score =
      finalClamp (scoreCore (gravelWindPenalty (windKmhOf wd)) (offroadTempPenalty (tempCOf wd))
        (humidityPenaltyOf (rhOf wd)) (rhOf wd) 3.5
        (visibilityPenaltyOf (visKmOf wd)) (uvPenaltyOf (uvOf wd)) (tempCOf wd)) := rfl

lemma calculateGravelScoreFromWeather_breakdown (wd : WeatherData) :
    (calculateGravelScoreFromWeather wd).breakdown =
      { windPenalty := round1 (gravelWindPenalty (windKmhOf wd))
        temperaturePenalty := offroadTempPenalty (tempCOf wd)
        humidityPenalty := humidityPenaltyOf (rhOf wd)
        visibilityPenalty := visibilityPenaltyOf (visKmOf wd)
        uvPenalty := round1 (uvPenaltyOf (uvOf wd)) } := rfl

lemma calculateMTBScoreFromWeather_score (wd : WeatherData) :
    (calculateMTBScoreFromWeather wd).score =
      finalClamp (scoreCore (windPenaltyStep (windKmhOf wd)) (offroadTempPenalty (tempCOf wd))
        (humidityPenaltyOf (rhOf wd)) (rhOf wd) 3.5
        (visibilityPenaltyOf (visKmOf wd)) (uvPenaltyOf (uvOf wd)) (tempCOf wd)) := rfl

lemma calculateMTBScoreFromWeather_breakdown (wd : WeatherData) :
    (calculateMTBScoreFromWeather wd).breakdown =
      { windPenalty := round1 (windPenaltyStep (windKmhOf wd))
        temperaturePenalty := offroadTempPenalty (tempCOf wd)
        humidityPenalty := humidityPenaltyOf (rhOf wd)
        visibilityPenalty := visibilityPenaltyOf (visKmOf wd)
        uvPenalty := round1 (uvPenaltyOf (uvOf wd)) } := rfl

lemma calculateBikeScoreFromWeather_eq (wd : WeatherData) (rel : String) :
    calculateBikeScoreFromWeather wd rel =
      calculateBikeScore (windKmhOf wd) rel (tempCOf wd) (rhOf wd) (visKmOf wd) (uvOf wd) := rfl

/-! ### Wind direction and monotonicity lemmas -/

lemma roadWindPenalty_headwind (w : ℚ) :
    roadWindPenalty w "headwind" = windPenaltyStep w * 1.3 := by
  simp +decide [roadWindPenalty]

lemma roadWindPenalty_tailwind (w : ℚ) :
    roadWindPenalty w "tailwind" = windPenaltyStep w * 0.7 := by
  simp +decide [roadWindPenalty]

lemma roadWindPenalty_crosswind (w : ℚ) :
    roadWindPenalty w "crosswind" = windPenaltyStep w := by
  simp +decide [roadWindPenalty]

lemma windPenaltyStep_mono {w1 w2 : ℚ} (h : w1 ≤ w2) :
    windPenaltyStep w1 ≤ windPenaltyStep w2 := by
  unfold windPenaltyStep
  split_ifs <;> linarith

lemma roadWindPenalty_mono (d : String) {w1 w2 : ℚ} (h : w1 ≤ w2) :
    roadWindPenalty w1 d ≤ roadWindPenalty w2 d := by
  have hs := windPenaltyStep_mono h
  simp only [roadWindPenalty]
  split_ifs <;> linarith

/-! ### Alert characterization -/

/-- Membership in a conditionally-emitted singleton list. -/
lemma mem_ite_singleton {P : Prop} [Decidable P] {x a : Alert} :
    (a ∈ if P then [x] else ([] : List Alert)) ↔ P ∧ a = x := by
  split_ifs with h <;> simp [h]

/-- Membership characterization of `generateSafetyAlerts`. -/
lemma mem_generateSafetyAlerts {wd : WeatherData} {a : Alert} :
    a ∈ generateSafetyAlerts wd ↔
      (25 ≤ kph wd.current.windSpeed ∧
        a = { type := "wind",
              severity := if 40 ≤ kph wd.current.windSpeed then "high" else "moderate",
              message := "Strong winds may affect bike handling." }) ∨
      (wd.current.visibility.getD 10000 < 2000 ∧
        a = { type := "visibility", severity := "moderate",
              message := "Low visibility. Use lights and high-visibility gear." }) ∨
      ((0 < wd.current.precipitation.getD 0 ∨ 60 < wd.current.precipitationProbability.getD 0) ∧
        a = { type := "wet", severity := "moderate",
              message := "Wet conditions possible. Increase braking distance." }) ∨
      (wd.current.temperature.getD 15 ≤ 0 ∧
        a = { type := "cold", severity := "high",
              message := "Freezing temperatures. Risk of ice." }) ∨
      (35 ≤ wd.current.temperature.getD 15 ∧
        a = { type := "heat", severity := "high",
              message := "High heat. Hydrate and avoid peak sun hours." }) := by
  simp only [generateSafetyAlerts, List.mem_append, mem_ite_singleton]
  tauto

/-! ### Claim theorems -/

/-- C1: for every input, each of the three activity scoring functions (road
`calculateBikeScore`, gravel `calculateGravelScoreFromWeather`, MTB
`calculateMTBScoreFromWeather`) returns a score in [1, 10] that is a whole
number of tenths (rounded to one decimal place). -/
theorem claim_C1_score_range_one_decimal :
    (∀ (w : ℚ) (d : String) (t h v u : ℚ),
      1 ≤ (calculateBikeScore w d t h v u).score ∧
      (calculateBikeScore w d t h v u).score ≤ 10 ∧
      ∃ n : ℤ, (calculateBikeScore w d t h v u).score = (n : ℚ) / 10) ∧
    (∀ wd : WeatherData,
      1 ≤ (calculateGravelScoreFromWeather wd).score ∧
      (calculateGravelScoreFromWeather wd).score ≤ 10 ∧
      ∃ n : ℤ, (calculateGravelScoreFromWeather wd).score = (n : ℚ) / 10) ∧
    (∀ wd : WeatherData,
      1 ≤ (calculateMTBScoreFromWeather wd).score ∧
      (calculateMTBScoreFromWeather wd).score ≤ 10 ∧
      ∃ n : ℤ, (calculateMTBScoreFromWeather wd).score = (n : ℚ) / 10) := by
  refine ⟨fun w d t h v u => ?_, fun wd => ?_, fun wd => ?_⟩
  · rw [calculateBikeScore_score]; exact finalClamp_bounds _
  · rw [calculateGravelScoreFromWeather_score]; exact finalClamp_bounds _
  · rw [calculateMTBScoreFromWeather_score]; exact finalClamp_bounds _

/-- C2: temperature above 35°C forces the score of each of the three activity
scoring functions to at most 2.0, regardless of all other inputs. -/
theorem claim_C2_heat_dominates :
    (∀ (w : ℚ) (d : String) (t h v u : ℚ), 35 < t →
      (calculateBikeScore w d t h v u).score ≤ 2) ∧
    (∀ wd : WeatherData, 35 < tempCOf wd → (calculateGravelScoreFromWeather wd).score ≤ 2) ∧
    (∀ wd : WeatherData, 35 < tempCOf wd → (calculateMTBScoreFromWeather wd).score ≤ 2) := by
  refine ⟨fun w d t h v u ht => ?_, fun wd ht => ?_, fun wd ht => ?_⟩
  · rw [calculateBikeScore_score]
    exact finalClamp_le (by norm_num) round1_two (scoreCore_le_two _ _ _ _ _ _ _ ht)
  · rw [calculateGravelScoreFromWeather_score]
    exact finalClamp_le (by norm_num) round1_two (scoreCore_le_two _ _ _ _ _ _ _ ht)
  · rw [calculateMTBScoreFromWeather_score]
    exact finalClamp_le (by norm_num) round1_two (scoreCore_le_two _ _ _ _ _ _ _ ht)

/-- Witness for C2 at temperature 40°C. -/
theorem claim_C2_heat_dominates_witness :
    (35 : ℚ) < 40 ∧
    (calculateBikeScore 0 "crosswind" 40 50 15 0).score ≤ 2 ∧
    (calculateGravelScoreFromWeather
      ⟨⟨some 40, some 50, some 0, some 15000, some 0, none, none⟩⟩).score ≤ 2 ∧
    (calculateMTBScoreFromWeather
      ⟨⟨some 40, some 50, some 0, some 15000, some 0, none, none⟩⟩).score ≤ 2 :=
  ⟨by norm_num,
   claim_C2_heat_dominates.1 0 "crosswind" 40 50 15 0 (by norm_num),
   claim_C2_heat_dominates.2.1 _ (by norm_num [tempCOf, numOr0]),
   claim_C2_heat_dominates.2.2 _ (by norm_num [tempCOf, numOr0])⟩

/-- C3: humidity at least 90% caps the road score at 4.0 and the gravel and
MTB scores at 3.5, regardless of all other inputs; moreover the cap is a
ceiling, not a further subtraction: at otherwise-ideal inputs with humidity
95% the scores land exactly on the caps. -/
theorem claim_C3_humidity_cap :
    (∀ (w : ℚ) (d : String) (t h v u : ℚ), 90 ≤ h →
      (calculateBikeScore w d t h v u).score ≤ 4) ∧
    (∀ wd : WeatherData, 90 ≤ rhOf wd → (calculateGravelScoreFromWeather wd).score ≤ 3.5) ∧
    (∀ wd : WeatherData, 90 ≤ rhOf wd → (calculateMTBScoreFromWeather wd).score ≤ 3.5) ∧
    (calculateBikeScore 0 "crosswind" 20 95 15 0).score = 4 ∧
    (calculateGravelScoreFromWeather
      ⟨⟨some 20, some 95, some 0, some 15000, some 0, none, none⟩⟩).score = 3.5 ∧
    (calculateMTBScoreFromWeather
      ⟨⟨some 20, some 95, some 0, some 15000, some 0, none, none⟩⟩).score = 3.5 := by
  have h40 : (4.0 : ℚ) = 4 := by norm_num
  refine ⟨fun w d t h v u hh => ?_, fun wd hh => ?_, fun wd hh => ?_, ?_, ?_, ?_⟩
  · rw [calculateBikeScore_score, h40]
    exact finalClamp_le (by norm_num) round1_four
      (scoreCore_le_cap _ _ _ _ _ hh (visibilityPenaltyOf_nonneg _) (uvPenaltyOf_nonneg _))
  · rw [calculateGravelScoreFromWeather_score]
    exact finalClamp_le (by norm_num) round1_three_half
      (scoreCore_le_cap _ _ _ _ _ hh (visibilityPenaltyOf_nonneg _) (uvPenaltyOf_nonneg _))
  · rw [calculateMTBScoreFromWeather_score]
    exact finalClamp_le (by norm_num) round1_three_half
      (scoreCore_le_cap _ _ _ _ _ hh (visibilityPenaltyOf_nonneg _) (uvPenaltyOf_nonneg _))
  · rw [calculateBikeScore_score, roadWindPenalty_crosswind]
    norm_num [windPenaltyStep, roadTempPenalty, humidityPenaltyOf, visibilityPenaltyOf,
      uvPenaltyOf, scoreCore, finalClamp, round1, jsRound, min_def, max_def]
  · rw [calculateGravelScoreFromWeather_score]
    norm_num [windKmhOf, tempCOf, rhOf, visKmOf, uvOf, kph, numOr0, gravelWindPenalty,
      windPenaltyStep, offroadTempPenalty, humidityPenaltyOf, visibilityPenaltyOf,
      uvPenaltyOf, scoreCore, finalClamp, round1, jsRound, min_def, max_def]
  · rw [calculateMTBScoreFromWeather_score]
    norm_num [windKmhOf, tempCOf, rhOf, visKmOf, uvOf, kph, numOr0,
      windPenaltyStep, offroadTempPenalty, humidityPenaltyOf, visibilityPenaltyOf,
      uvPenaltyOf, scoreCore, finalClamp, round1, jsRound, min_def, max_def]

/-- Witness for C3 at humidity 95%. -/
theorem claim_C3_humidity_cap_witness :
    (90 : ℚ) ≤ 95 ∧
    (calculateBikeScore 0 "crosswind" 20 95 15 0).score ≤ 4 ∧
    (calculateGravelScoreFromWeather
      ⟨⟨some 20, some 95, some 0, some 15000, some 0, none, none⟩⟩).score ≤ 3.5 ∧
    (calculateMTBScoreFromWeather
      ⟨⟨some 20, some 95, some 0, some 15000, some 0, none, none⟩⟩).score ≤ 3.5 :=
  ⟨by norm_num,
   claim_C3_humidity_cap.1 0 "crosswind" 20 95 15 0 (by norm_num),
   claim_C3_humidity_cap.2.1 _ (by norm_num [rhOf, numOr0]),
   claim_C3_humidity_cap.2.2.1 _ (by norm_num [rhOf, numOr0])⟩

/-- C4: the temperature penalty reported in the breakdown of each activity
scoring function agrees everywhere with the spec's temperature tables
(`specTemperaturePenaltyRoad` for road, `specTemperaturePenaltyOffroad` for
gravel and MTB, applied to the extracted current temperature). -/
theorem claim_C4_temperature_table :
    (∀ (w : ℚ) (d : String) (t h v u : ℚ),
      (calculateBikeScore w d t h v u).breakdown.temperaturePenalty =
        specTemperaturePenaltyRoad t) ∧
    (∀ wd : WeatherData,
      (calculateGravelScoreFromWeather wd).breakdown.temperaturePenalty =
        specTemperaturePenaltyOffroad (tempCOf wd)) ∧
    (∀ wd : WeatherData,
      (calculateMTBScoreFromWeather wd).breakdown.temperaturePenalty =
        specTemperaturePenaltyOffroad (tempCOf wd)) :=
  ⟨fun _ _ _ _ _ _ => rfl, fun _ => rfl, fun _ => rfl⟩

/-- C5 counterexample: raising the wind speed from 0 to 15 km/h raises the
road wind penalty from 0 to 1, so the penalty at the higher speed is NOT ≤
the penalty at the lower speed as the claim states. -/
theorem claim_C5_counterexample :
    (0 : ℚ) ≤ 15 ∧
    ¬ ((calculateBikeScore 15 "crosswind" 20 50 15 0).breakdown.windPenalty ≤
       (calculateBikeScore 0 "crosswind" 20 50 15 0).breakdown.windPenalty) := by
  constructor
  · norm_num
  · show ¬ (round1 (roadWindPenalty 15 "crosswind") ≤ round1 (roadWindPenalty 0 "crosswind"))
    rw [roadWindPenalty_crosswind, roadWindPenalty_crosswind]
    norm_num [windPenaltyStep, round1, jsRound]

/-- C5 (amended): for road scoring with the wind relation and all other inputs
fixed, increasing the wind speed never DECREASES the wind penalty — the
penalty is monotone nondecreasing in wind speed. -/
theorem claim_C5_wind_penalty_monotone (d : String) (t h v u : ℚ) {w1 w2 : ℚ}
    (hw : w1 ≤ w2) :
    (calculateBikeScore w1 d t h v u).breakdown.windPenalty ≤
    (calculateBikeScore w2 d t h v u).breakdown.windPenalty := by
  show round1 (roadWindPenalty w1 d) ≤ round1 (roadWindPenalty w2 d)
  exact round1_mono (roadWindPenalty_mono d hw)

/-- Witness for the amended C5 at wind speeds 0 and 15 km/h. -/
theorem claim_C5_wind_penalty_monotone_witness :
    (0 : ℚ) ≤ 15 ∧
    (calculateBikeScore 0 "crosswind" 20 50 15 0).breakdown.windPenalty ≤
    (calculateBikeScore 15 "crosswind" 20 50 15 0).breakdown.windPenalty :=
  ⟨by norm_num, claim_C5_wind_penalty_monotone "crosswind" 20 50 15 0 (by norm_num)⟩

/-- C6: at any fixed wind speed and otherwise identical inputs, the road wind
penalty with a headwind is at least the crosswind penalty, which is at least
the tailwind penalty. -/
theorem claim_C6_direction_order (w t h v u : ℚ) :
    (calculateBikeScore w "crosswind" t h v u).breakdown.windPenalty ≤
      (calculateBikeScore w "headwind" t h v u).breakdown.windPenalty ∧
    (calculateBikeScore w "tailwind" t h v u).breakdown.windPenalty ≤
      (calculateBikeScore w "crosswind" t h v u).breakdown.windPenalty := by
  have hs := windPenaltyStep_nonneg w
  constructor
  · show round1 (roadWindPenalty w "crosswind") ≤ round1 (roadWindPenalty w "headwind")
    rw [roadWindPenalty_crosswind, roadWindPenalty_headwind]
    exact round1_mono (by linarith)
  · show round1 (roadWindPenalty w "tailwind") ≤ round1 (roadWindPenalty w "crosswind")
    rw [roadWindPenalty_tailwind, roadWindPenalty_crosswind]
    exact round1_mono (by linarith)

/-- C7 counterexample: at a raw wind speed of 39.99 km/h — strictly below
40 — the generator still emits a severity-"high" wind alert, because `kph`
first rounds the speed to 40.0. -/
theorem claim_C7_counterexample :
    ((39.99 : ℚ) < 40) ∧
    hasAlert (generateSafetyAlerts ⟨⟨none, none, some 39.99, none, none, none, none⟩⟩)
      "wind" "high" := by
  have hk : kph (some (39.99 : ℚ)) = 40 := by norm_num [kph, round1, jsRound]
  refine ⟨by norm_num, ?_⟩
  refine ⟨{ type := "wind", severity := "high",
            message := "Strong winds may affect bike handling." }, ?_, rfl, rfl⟩
  rw [mem_generateSafetyAlerts]
  left
  show (25 : ℚ) ≤ kph (some 39.99) ∧ _ = _
  rw [hk]
  exact ⟨by norm_num, by rw [if_pos (by norm_num : (40:ℚ) ≤ 40)]⟩

/-- C7 (amended): the wind-alert thresholds apply to the current wind speed
after `kph` rounds it to one decimal: a severity-"high" wind alert occurs iff
the rounded speed is ≥40, severity "moderate" iff it is in [25, 40), and no
wind alert occurs iff it is <25. -/
theorem claim_C7_wind_alert_thresholds (wd : WeatherData) :
    (hasAlert (generateSafetyAlerts wd) "wind" "high" ↔ 40 ≤ kph wd.current.windSpeed) ∧
    (hasAlert (generateSafetyAlerts wd) "wind" "moderate" ↔
      25 ≤ kph wd.current.windSpeed ∧ kph wd.current.windSpeed < 40) ∧
    (¬ hasAlertType (generateSafetyAlerts wd) "wind" ↔ kph wd.current.windSpeed < 25) := by
  have hty : hasAlertType (generateSafetyAlerts wd) "wind" ↔ 25 ≤ kph wd.current.windSpeed := by
    constructor
    · rintro ⟨a, ha, hta⟩
      rw [mem_generateSafetyAlerts] at ha
      rcases ha with ⟨hw, rfl⟩ | ⟨_, rfl⟩ | ⟨_, rfl⟩ | ⟨_, rfl⟩ | ⟨_, rfl⟩
      · exact hw
      all_goals exact absurd hta (by decide)
    · intro hw
      exact ⟨_, mem_generateSafetyAlerts.mpr (Or.inl ⟨hw, rfl⟩), rfl⟩
  refine ⟨?_, ?_, ?_⟩
  · constructor
    · rintro ⟨a, ha, hta, hsa⟩
      rw [mem_generateSafetyAlerts] at ha
      rcases ha with ⟨hw, rfl⟩ | ⟨_, rfl⟩ | ⟨_, rfl⟩ | ⟨_, rfl⟩ | ⟨_, rfl⟩
      · by_contra h40
        rw [if_neg h40] at hsa
        exact absurd hsa (by decide)
      all_goals exact absurd hta (by decide)
    · intro h40
      refine ⟨{ type := "wind", severity := "high",
                message := "Strong winds may affect bike handling." },
        mem_generateSafetyAlerts.mpr (Or.inl ⟨by linarith, ?_⟩), rfl, rfl⟩
      rw [if_pos h40]
  · constructor
    · rintro ⟨a, ha, hta, hsa⟩
      rw [mem_generateSafetyAlerts] at ha
      rcases ha with ⟨hw, rfl⟩ | ⟨_, rfl⟩ | ⟨_, rfl⟩ | ⟨_, rfl⟩ | ⟨_, rfl⟩
      · refine ⟨hw, ?_⟩
        by_contra h40
        rw [not_lt] at h40
        rw [if_pos h40] at hsa
        exact absurd hsa (by decide)
      all_goals exact absurd hta (by decide)
    · rintro ⟨hw, h40⟩
      refine ⟨{ type := "wind", severity := "moderate",
                message := "Strong winds may affect bike handling." },
        mem_generateSafetyAlerts.mpr (Or.inl ⟨hw, ?_⟩), rfl, rfl⟩
      rw [if_neg (not_le.mpr h40)]
  · rw [hty, not_le]

/-- Witness for the amended C7 at rounded wind speeds 45, 30 and 5 km/h. -/
theorem claim_C7_wind_alert_thresholds_witness :
    (hasAlert (generateSafetyAlerts ⟨⟨none, none, some 45, none, none, none, none⟩⟩)
      "wind" "high" ↔ 40 ≤ kph (some 45)) ∧
    (hasAlert (generateSafetyAlerts ⟨⟨none, none, some 30, none, none, none, none⟩⟩)
      "wind" "moderate" ↔ 25 ≤ kph (some 30) ∧ kph (some 30) < 40) ∧
    (¬ hasAlertType (generateSafetyAlerts ⟨⟨none, none, some 5, none, none, none, none⟩⟩)
      "wind" ↔ kph (some 5) < 25) :=
  ⟨(claim_C7_wind_alert_thresholds ⟨⟨none, none, some 45, none, none, none, none⟩⟩).1,
   (claim_C7_wind_alert_thresholds ⟨⟨none, none, some 30, none, none, none, none⟩⟩).2.1,
   (claim_C7_wind_alert_thresholds ⟨⟨none, none, some 5, none, none, none, none⟩⟩).2.2⟩

/-- C10: a null current field never causes an alert — null windSpeed means no
wind alert, null visibility no visibility alert, null precipitation and
probability no wet alert, null temperature neither cold nor heat; the all-null
snapshot yields no alerts at all. -/
theorem claim_C10_null_fields_fire_no_alerts :
    (∀ wd : WeatherData, wd.current.windSpeed = none →
      ¬ hasAlertType (generateSafetyAlerts wd) "wind") ∧
    (∀ wd : WeatherData, wd.current.visibility = none →
      ¬ hasAlertType (generateSafetyAlerts wd) "visibility") ∧
    (∀ wd : WeatherData, wd.current.precipitation = none →
      wd.current.precipitationProbability = none →
      ¬ hasAlertType (generateSafetyAlerts wd) "wet") ∧
    (∀ wd : WeatherData, wd.current.temperature = none →
      ¬ hasAlertType (generateSafetyAlerts wd) "cold" ∧
      ¬ hasAlertType (generateSafetyAlerts wd) "heat") ∧
    generateSafetyAlerts ⟨⟨none, none, none, none, none, none, none⟩⟩ = [] := by
  refine ⟨?_, ?_, ?_, ?_, ?_⟩
  · rintro wd h ⟨a, ha, hta⟩
    rw [mem_generateSafetyAlerts] at ha
    rcases ha with ⟨hw, rfl⟩ | ⟨_, rfl⟩ | ⟨_, rfl⟩ | ⟨_, rfl⟩ | ⟨_, rfl⟩
    · rw [h] at hw; norm_num [kph] at hw
    all_goals exact absurd hta (by decide)
  · rintro wd h ⟨a, ha, hta⟩
    rw [mem_generateSafetyAlerts] at ha
    rcases ha with ⟨_, rfl⟩ | ⟨hv, rfl⟩ | ⟨_, rfl⟩ | ⟨_, rfl⟩ | ⟨_, rfl⟩
    · exact absurd (show ("wind" : String) = "visibility" from hta) (by decide)
    · rw [h] at hv; norm_num at hv
    all_goals exact absurd hta (by decide)
  · rintro wd h1 h2 ⟨a, ha, hta⟩
    rw [mem_generateSafetyAlerts] at ha
    rcases ha with ⟨_, rfl⟩ | ⟨_, rfl⟩ | ⟨hp, rfl⟩ | ⟨_, rfl⟩ | ⟨_, rfl⟩
    · exact absurd (show ("wind" : String) = "wet" from hta) (by decide)
    · exact absurd hta (by decide)
    · rw [h1, h2] at hp; norm_num at hp
    all_goals exact absurd hta (by decide)
  · intro wd h
    constructor
    · rintro ⟨a, ha, hta⟩
      rw [mem_generateSafetyAlerts] at ha
      rcases ha with ⟨_, rfl⟩ | ⟨_, rfl⟩ | ⟨_, rfl⟩ | ⟨hc, rfl⟩ | ⟨_, rfl⟩
      · exact absurd (show ("wind" : String) = "cold" from hta) (by decide)
      · exact absurd hta (by decide)
      · exact absurd hta (by decide)
      · rw [h] at hc; norm_num at hc
      · exact absurd hta (by decide)
    · rintro ⟨a, ha, hta⟩
      rw [mem_generateSafetyAlerts] at ha
      rcases ha with ⟨_, rfl⟩ | ⟨_, rfl⟩ | ⟨_, rfl⟩ | ⟨_, rfl⟩ | ⟨hh, rfl⟩
      · exact absurd (show ("wind" : String) = "heat" from hta) (by decide)
      · exact absurd hta (by decide)
      · exact absurd hta (by decide)
      · exact absurd hta (by decide)
      · rw [h] at hh; norm_num at hh
  · norm_num [generateSafetyAlerts, kph]

/-- Rounding a zero speed gives zero. -/
lemma kph_some_zero : kph (some 0) = 0 := by norm_num [kph, round1, jsRound]

/-- Congruence for the gravel scorer through its five extracted inputs. -/
lemma gravel_congr {A B : WeatherData} (hw : windKmhOf A = windKmhOf B)
    (ht : tempCOf A = tempCOf B) (hr : rhOf A = rhOf B) (hv : visKmOf A = visKmOf B)
    (hu : uvOf A = uvOf B) :
    calculateGravelScoreFromWeather A = calculateGravelScoreFromWeather B := by
  simp only [calculateGravelScoreFromWeather, hw, ht, hr, hv, hu]

/-- Congruence for the MTB scorer through its five extracted inputs. -/
lemma mtb_congr {A B : WeatherData} (hw : windKmhOf A = windKmhOf B)
    (ht : tempCOf A = tempCOf B) (hr : rhOf A = rhOf B) (hv : visKmOf A = visKmOf B)
    (hu : uvOf A = uvOf B) :
    calculateMTBScoreFromWeather A = calculateMTBScoreFromWeather B := by
  simp only [calculateMTBScoreFromWeather, hw, ht, hr, hv, hu]

/-- A null wind speed extracts like an explicit zero. -/
lemma windKmhOf_none_eq_zero (c : CurrentWeather) :
    windKmhOf ⟨{ c with windSpeed := none }⟩ = windKmhOf ⟨{ c with windSpeed := some 0 }⟩ := by
  show kph none = kph (some 0)
  rw [kph_some_zero]
  rfl

/-- C8: the snapshot-level scoring functions treat a null numeric field
exactly as the neutral default 0 (for each of temperature, humidity,
windSpeed, visibility, uvIndex), and always return a well-formed result with
score in [1, 10]; they are total functions, so no error can be raised. -/
theorem claim_C8_null_defaults_wellformed :
    (∀ (c : CurrentWeather) (rel : String),
      calculateBikeScoreFromWeather ⟨{ c with temperature := none }⟩ rel =
        calculateBikeScoreFromWeather ⟨{ c with temperature := some 0 }⟩ rel ∧
      calculateBikeScoreFromWeather ⟨{ c with humidity := none }⟩ rel =
        calculateBikeScoreFromWeather ⟨{ c with humidity := some 0 }⟩ rel ∧
      calculateBikeScoreFromWeather ⟨{ c with windSpeed := none }⟩ rel =
        calculateBikeScoreFromWeather ⟨{ c with windSpeed := some 0 }⟩ rel ∧
      calculateBikeScoreFromWeather ⟨{ c with visibility := none }⟩ rel =
        calculateBikeScoreFromWeather ⟨{ c with visibility := some 0 }⟩ rel ∧
      calculateBikeScoreFromWeather ⟨{ c with uvIndex := none }⟩ rel =
        calculateBikeScoreFromWeather ⟨{ c with uvIndex := some 0 }⟩ rel) ∧
    (∀ c : CurrentWeather,
      calculateGravelScoreFromWeather ⟨{ c with temperature := none }⟩ =
        calculateGravelScoreFromWeather ⟨{ c with temperature := some 0 }⟩ ∧
      calculateGravelScoreFromWeather ⟨{ c with humidity := none }⟩ =
        calculateGravelScoreFromWeather ⟨{ c with humidity := some 0 }⟩ ∧
      calculateGravelScoreFromWeather ⟨{ c with windSpeed := none }⟩ =
        calculateGravelScoreFromWeather ⟨{ c with windSpeed := some 0 }⟩ ∧
      calculateGravelScoreFromWeather ⟨{ c with visibility := none }⟩ =
        calculateGravelScoreFromWeather ⟨{ c with visibility := some 0 }⟩ ∧
      calculateGravelScoreFromWeather ⟨{ c with uvIndex := none }⟩ =
        calculateGravelScoreFromWeather ⟨{ c with uvIndex := some 0 }⟩) ∧
    (∀ c : CurrentWeather,
      calculateMTBScoreFromWeather ⟨{ c with temperature := none }⟩ =
        calculateMTBScoreFromWeather ⟨{ c with temperature := some 0 }⟩ ∧
      calculateMTBScoreFromWeather ⟨{ c with humidity := none }⟩ =
        calculateMTBScoreFromWeather ⟨{ c with humidity := some 0 }⟩ ∧
      calculateMTBScoreFromWeather ⟨{ c with windSpeed := none }⟩ =
        calculateMTBScoreFromWeather ⟨{ c with windSpeed := some 0 }⟩ ∧
      calculateMTBScoreFromWeather ⟨{ c with visibility := none }⟩ =
        calculateMTBScoreFromWeather ⟨{ c with visibility := some 0 }⟩ ∧
      calculateMTBScoreFromWeather ⟨{ c with uvIndex := none }⟩ =
        calculateMTBScoreFromWeather ⟨{ c with uvIndex := some 0 }⟩) ∧
    (∀ (wd : WeatherData) (rel : String),
      1 ≤ (calculateBikeScoreFromWeather wd rel).score ∧
      (calculateBikeScoreFromWeather wd rel).score ≤ 10) ∧
    (∀ wd : WeatherData,
      1 ≤ (calculateGravelScoreFromWeather wd).score ∧
      (calculateGravelScoreFromWeather wd).score ≤ 10) ∧
    (∀ wd : WeatherData,
      1 ≤ (calculateMTBScoreFromWeather wd).score ∧
      (calculateMTBScoreFromWeather wd).score ≤ 10) := by
  refine ⟨fun c rel => ⟨rfl, rfl, ?_, rfl, rfl⟩,
    fun c => ⟨rfl, rfl, gravel_congr (windKmhOf_none_eq_zero c) rfl rfl rfl rfl, rfl, rfl⟩,
    fun c => ⟨rfl, rfl, mtb_congr (windKmhOf_none_eq_zero c) rfl rfl rfl rfl, rfl, rfl⟩,
    fun wd rel => ?_, fun wd => ?_, fun wd => ?_⟩
  · rw [calculateBikeScoreFromWeather_eq, calculateBikeScoreFromWeather_eq,
      windKmhOf_none_eq_zero c]
    rfl
  · rw [calculateBikeScoreFromWeather_eq, calculateBikeScore_score]
    exact ⟨(finalClamp_bounds _).1, (finalClamp_bounds _).2.1⟩
  · rw [calculateGravelScoreFromWeather_score]
    exact ⟨(finalClamp_bounds _).1, (finalClamp_bounds _).2.1⟩
  · rw [calculateMTBScoreFromWeather_score]
    exact ⟨(finalClamp_bounds _).1, (finalClamp_bounds _).2.1⟩

/-- Witness for C10 at the all-null snapshot. -/
theorem claim_C10_null_fields_fire_no_alerts_witness :
    ¬ hasAlertType
      (generateSafetyAlerts ⟨⟨none, none, none, none, none, none, none⟩⟩) "wind" ∧
    ¬ hasAlertType
      (generateSafetyAlerts ⟨⟨none, none, none, none, none, none, none⟩⟩) "visibility" ∧
    ¬ hasAlertType
      (generateSafetyAlerts ⟨⟨none, none, none, none, none, none, none⟩⟩) "wet" ∧
    ¬ hasAlertType
      (generateSafetyAlerts ⟨⟨none, none, none, none, none, none, none⟩⟩) "cold" ∧
    ¬ hasAlertType
      (generateSafetyAlerts ⟨⟨none, none, none, none, none, none, none⟩⟩) "heat" :=
  ⟨claim_C10_null_fields_fire_no_alerts.1 _ rfl,
   claim_C10_null_fields_fire_no_alerts.2.1 _ rfl,
   claim_C10_null_fields_fire_no_alerts.2.2.1 _ rfl rfl,
   (claim_C10_null_fields_fire_no_alerts.2.2.2.1 _ rfl).1,
   (claim_C10_null_fields_fire_no_alerts.2.2.2.1 _ rfl).2⟩

/-! ### Recents store lemmas -/

/-- Sorting a list already in descending-timestamp order leaves it unchanged. -/
lemma sortByTimestampDesc_of_sorted :
    ∀ {l : List StoredLocation}, l.Pairwise (fun a b => b.timestamp ≤ a.timestamp) →
      sortByTimestampDesc l = l := by
  intro l
  induction l with
  | nil => intro _; rfl
  | cons a l ih =>
    intro hp
    rw [List.pairwise_cons] at hp
    show insertByTimestampDesc a (sortByTimestampDesc l) = a :: l
    rw [ih hp.2]
    cases l with
    | nil => rfl
    | cons b bs =>
      show (if b.timestamp ≤ a.timestamp then _ else _) = _
      rw [if_pos (hp.1 b (List.mem_cons_self b bs))]

/-- The dedup loop leaves a list unchanged when its normalized names are
pairwise distinct, none of them was seen before, and it fits in the
remaining room. -/
lemma recentsDedup_eq_self :
    ∀ (l : List StoredLocation) (seen : List String) (room : Nat),
      l.Pairwise (fun a b => normalizeName a.name ≠ normalizeName b.name) →
      (∀ x ∈ l, normalizeName x.name ∉ seen) →
      l.length ≤ room →
      recentsDedup seen room l = l := by
  intro l
  induction l with
  | nil => intro seen room _ _ _; rfl
  | cons x xs ih =>
    intro seen room hp hseen hlen
    rw [List.pairwise_cons] at hp
    have hx : normalizeName x.name ∉ seen := hseen x (List.mem_cons_self x xs)
    show (if normalizeName x.name ∈ seen then _ else if room ≤ 1 then _ else _) = _
    rw [if_neg hx]
    by_cases hr : room ≤ 1
    · rw [if_pos hr]
      have hxs : xs = [] := by
        have : xs.length = 0 := by
          simp only [List.length_cons] at hlen
          omega
        exact List.length_eq_zero.mp this
      rw [hxs]
    · rw [if_neg hr]
      congr 1
      refine ih (normalizeName x.name :: seen) (room - 1) hp.2 ?_ ?_
      · intro y hy
        rw [List.mem_cons]
        push_neg
        exact ⟨fun hk => hp.1 y hy hk.symm, hseen y (List.mem_cons_of_mem x hy)⟩
      · simp only [List.length_cons] at hlen
        omega

/-- On a store satisfying the invariant, reading the recents is the
identity. -/
lemma getRecentLocationsInternal_of_invariant {st : List StoredLocation}
    (h : RecentsInvariant st) : getRecentLocationsInternal st = st := by
  obtain ⟨hts, hnames, hlen⟩ := h
  unfold getRecentLocationsInternal
  rw [sortByTimestampDesc_of_sorted hts]
  exact recentsDedup_eq_self st [] MAX_RECENTS hnames (by simp) hlen

/-- On a store satisfying the invariant, a save prepends the updated location
to the filtered store and truncates to the cap. -/
lemma saveRecentLocation_of_invariant (loc : StoredLocation) (now : ℚ)
    {st : List StoredLocation} (h : RecentsInvariant st) :
    saveRecentLocation loc now st =
      ({ loc with timestamp := now } :: st.filter fun r =>
        (r.id != loc.id) && (normalizeName r.name != normalizeName loc.name)).take
        MAX_RECENTS := by
  unfold saveRecentLocation
  rw [getRecentLocationsInternal_of_invariant h]

/-- Truncating the second summand before an append does not change the
truncated append. -/
lemma take_append_take {α : Type} (A B : List α) (n : Nat) :
    (A ++ B.take n).take n = (A ++ B).take n := by
  rw [List.take_append_eq_append_take, List.take_append_eq_append_take, List.take_take]
  congr 1
  exact congrArg B.take (Nat.min_eq_left (Nat.sub_le n A.length))

/-- Saving a sequence of locations that are fresh relative to the store and
to each other (distinct ids and normalized names) with nondecreasing save
times, over an invariant-satisfying store, yields the reversed saves in
front of the store, truncated to the cap. -/
lemma saveAll_of_fresh :
    ∀ (ps : List (StoredLocation × ℚ)) (st : List StoredLocation),
      RecentsInvariant st →
      (∀ e ∈ st, ∀ p ∈ ps, e.id ≠ p.1.id) →
      (∀ e ∈ st, ∀ p ∈ ps, normalizeName e.name ≠ normalizeName p.1.name) →
      (∀ e ∈ st, ∀ p ∈ ps, e.timestamp ≤ p.2) →
      ps.Pairwise (fun p q => p.1.id ≠ q.1.id) →
      ps.Pairwise (fun p q => normalizeName p.1.name ≠ normalizeName q.1.name) →
      ps.Pairwise (fun p q => p.2 ≤ q.2) →
      saveAll ps st = ((ps.map savedEntry).reverse ++ st).take MAX_RECENTS := by
  intro ps
  induction ps with
  | nil =>
    intro st hinv _ _ _ _ _ _
    simp only [saveAll, List.foldl_nil, List.map_nil, List.reverse_nil, List.nil_append]
    exact (List.take_of_length_le hinv.2.2).symm
  | cons p ps ih =>
    intro st hinv hfids hfnames hfts hpids hpnames hpts
    rw [List.pairwise_cons] at hpids hpnames hpts
    have hsave : saveRecentLocation p.1 p.2 st = (savedEntry p :: st).take MAX_RECENTS := by
      rw [saveRecentLocation_of_invariant p.1 p.2 hinv]
      have hfil : (st.filter fun r =>
          (r.id != p.1.id) && (normalizeName r.name != normalizeName p.1.name)) = st := by
        refine List.filter_eq_self.mpr fun e he => ?_
        simp only [Bool.and_eq_true, bne_iff_ne, ne_eq]
        exact ⟨hfids e he p (List.mem_cons_self p ps),
          hfnames e he p (List.mem_cons_self p ps)⟩
      rw [hfil]
      rfl
    have hsub : (savedEntry p :: st).take MAX_RECENTS |>.Sublist (savedEntry p :: st) :=
      List.take_sublist _ _
    have hmem : ∀ e ∈ (savedEntry p :: st).take MAX_RECENTS, e ∈ savedEntry p :: st :=
      fun e he => hsub.subset he
    have hinv2 : RecentsInvariant ((savedEntry p :: st).take MAX_RECENTS) := by
      refine ⟨List.Pairwise.sublist hsub ?_, List.Pairwise.sublist hsub ?_, ?_⟩
      · rw [List.pairwise_cons]
        exact ⟨fun e he => hfts e he p (List.mem_cons_self p ps), hinv.1⟩
      · rw [List.pairwise_cons]
        exact ⟨fun e he h => hfnames e he p (List.mem_cons_self p ps) h.symm, hinv.2.1⟩
      · rw [List.length_take]
        exact min_le_left _ _
    have hstep : ∀ e ∈ (savedEntry p :: st).take MAX_RECENTS, ∀ q ∈ ps,
        e.id ≠ q.1.id ∧ normalizeName e.name ≠ normalizeName q.1.name ∧
        e.timestamp ≤ q.2 := by
      intro e he q hq
      rcases List.mem_cons.mp (hmem e he) with rfl | hest
      · refine ⟨hpids.1 q hq, hpnames.1 q hq, hpts.1 q hq⟩
      · exact ⟨hfids e hest q (List.mem_cons_of_mem p hq),
          hfnames e hest q (List.mem_cons_of_mem p hq),
          hfts e hest q (List.mem_cons_of_mem p hq)⟩
    have hrec := ih ((savedEntry p :: st).take MAX_RECENTS) hinv2
      (fun e he q hq => (hstep e he q hq).1)
      (fun e he q hq => (hstep e he q hq).2.1)
      (fun e he q hq => (hstep e he q hq).2.2)
      hpids.2 hpnames.2 hpts.2
    show saveAll ps (saveRecentLocation p.1 p.2 st) = _
    rw [hsave, hrec, take_append_take]
    rw [List.map_cons, List.reverse_cons, List.append_assoc, List.singleton_append]

/-- C9: starting from an empty store, sixteen sequential saves of locations
with pairwise distinct ids and pairwise distinct normalized names (at
nondecreasing save times) leave exactly 15 entries, ordered
most-recently-saved first (the reversed save sequence truncated to the cap);
and on an invariant store containing an entry whose normalized name matches
the saved location, the save removes that entry and places the new one
first instead of duplicating it. -/
theorem claim_C9_recents_cap_and_dedup :
    (∀ ps : List (StoredLocation × ℚ), ps.length = 16 →
      ps.Pairwise (fun p q => p.1.id ≠ q.1.id) →
      ps.Pairwise (fun p q => normalizeName p.1.name ≠ normalizeName q.1.name) →
      ps.Pairwise (fun p q => p.2 ≤ q.2) →
      (saveAll ps []).length = 15 ∧
      saveAll ps [] = ((ps.map savedEntry).reverse).take MAX_RECENTS) ∧
    (∀ (loc : StoredLocation) (now : ℚ) (st : List StoredLocation),
      RecentsInvariant st →
      (∃ e ∈ st, normalizeName e.name = normalizeName loc.name) →
      saveRecentLocation loc now st =
        { loc with timestamp := now } :: st.filter fun r =>
          (r.id != loc.id) && (normalizeName r.name != normalizeName loc.name)) := by
  constructor
  · intro ps h16 hids hnames hts
    have hempty : RecentsInvariant [] :=
      ⟨List.Pairwise.nil, List.Pairwise.nil, by simp [MAX_RECENTS]⟩
    have hmain := saveAll_of_fresh ps [] hempty (by simp) (by simp) (by simp)
      hids hnames hts
    rw [List.append_nil] at hmain
    refine ⟨?_, hmain⟩
    rw [hmain, List.length_take, List.length_reverse, List.length_map, h16]
    rfl
  · rintro loc now st hinv ⟨e, he, hname⟩
    rw [saveRecentLocation_of_invariant loc now hinv]
    apply List.take_of_length_le
    have hlt : (st.filter fun r =>
        (r.id != loc.id) && (normalizeName r.name != normalizeName loc.name)).length <
        st.length := by
      refine List.length_filter_lt_length_iff_exists.mpr ⟨e, he, ?_⟩
      simp only [Bool.and_eq_true, bne_iff_ne, ne_eq, not_and, not_not]
      intro _
      exact hname
    have h15 : st.length ≤ 15 := hinv.2.2
    simp only [List.length_cons]
    show _ ≤ 15
    omega

/-- Witness for C9: the sixteen concrete saves of `recentsWitnessSaves`, and
replacing the stored name "Paris" by a save named " PARIS ". -/
theorem claim_C9_recents_cap_and_dedup_witness :
    (saveAll recentsWitnessSaves []).length = 15 ∧
    saveAll recentsWitnessSaves [] =
      ((recentsWitnessSaves.map savedEntry).reverse).take MAX_RECENTS ∧
    saveRecentLocation ⟨"17", " PARIS ", 0, 0, 0⟩ 20 [⟨"16", "Paris", 0, 0, 16⟩] =
      { (⟨"17", " PARIS ", 0, 0, 0⟩ : StoredLocation) with timestamp := 20 } ::
        ([(⟨"16", "Paris", 0, 0, 16⟩ : StoredLocation)].filter fun r =>
          (r.id != (⟨"17", " PARIS ", 0, 0, 0⟩ : StoredLocation).id) &&
          (normalizeName r.name !=
            normalizeName (⟨"17", " PARIS ", 0, 0, 0⟩ : StoredLocation).name)) := by
  obtain ⟨h1, h2⟩ := claim_C9_recents_cap_and_dedup.1 recentsWitnessSaves rfl
    (by decide) (by decide) (by decide)
  refine ⟨h1, h2, ?_⟩
  exact claim_C9_recents_cap_and_dedup.2 ⟨"17", " PARIS ", 0, 0, 0⟩ 20
    [⟨"16", "Paris", 0, 0, 16⟩]
    ⟨by decide, by decide, by decide⟩
    ⟨⟨"16", "Paris", 0, 0, 16⟩, by decide, by decide⟩

end W4B
